import Mathlib

/-!
Verification of the core of `src/mcp_server_pox/server.py` (class
`POXOpenFlowManager`): the JSON-RPC client `_execute_of_command`, the facade
operations `get_switches`, `get_switch_desc`, `get_flow_stats`, `set_table`,
and the session state (`configs`, `insights`) with the memo synthesizer
`_synthesize_network_memo`.

Modelling choices:
* JSON values are the inductive `Json`; Python dicts are association lists
  (`Outcome`) with insertion order and first-key lookup, matching dicts whose
  keys are inserted at most once (as everywhere in this code).
* The single HTTP round trip performed by `requests.post` inside
  `_execute_of_command` is modelled by an `HttpBehavior` argument describing
  what the controller / network did for that call: a completed response with a
  status code, body text and the result of JSON-decoding the body, or a raised
  transport exception with its message.
* Methods that mutate `self` are state-passing functions over `POXState`;
  methods that only read state return it unchanged in the pair.
* Library functions from Python (`json.dumps`, `str()` formatting in
  f-strings, string slicing `[:n]`) are modelled by `dumps`, `pyStr`,
  `pyTake`; their doc comments note the simplifications, none of which is
  observed by a theorem below beyond well-definedness.
-/

/-- A JSON value, as decoded from the controller response body or supplied as
a tool argument. Python numbers are modelled as integers (no claim inspects a
numeric payload beyond truthiness). -/
inductive Json where
  | null
  | bool (b : Bool)
  | num (n : Int)
  | str (s : String)
  | arr (items : List Json)
  | obj (fields : List (String × Json))

/-- A decoded JSON object (a Python dict): an association list in insertion
order. This is the return shape of `_execute_of_command`. -/
abbrev Outcome : Type := List (String × Json)

/-- Python `d.get(k, default)` on a dict. -/
def getD (o : Outcome) (k : String) (d : Json) : Json :=
  (List.lookup k o).getD d

/-- Python truthiness `bool(j)` of a JSON value: `None`, `False`, `0`, `""`,
`[]` and `{}` (written here as empty obj) are falsy, everything else truthy.
Used by `if match:` in `get_flow_stats`. -/
def truthy : Json → Bool
  | .null => false
  | .bool b => b
  | .num n => !(n == 0)
  | .str s => !(s == "")
  | .arr l => !l.isEmpty
  | .obj l => !l.isEmpty

/-- The Python test `j is None`, for arguments that default to `None`. -/
def jsonIsNull : Json → Bool
  | .null => true
  | _ => false

/-- Concatenation of the strings `f x` for `x` in the list, in order. Used to
express the result of the Python `memo += ...` loops. -/
def joinMap (f : α → String) : List α → String
  | [] => ""
  | x :: xs => f x ++ joinMap f xs

/-- Modelled from Python `json.dumps` default escaping of one character inside
a string literal (simplified: the common escapes; other characters verbatim).
No theorem depends on the exact escape table. -/
def jsonEscapeChar : Char → String
  | '"' => "\\\""
  | '\\' => "\\\\"
  | '\n' => "\\n"
  | '\t' => "\\t"
  | '\r' => "\\r"
  | c => String.singleton c

/-- Escape a string for inclusion in a JSON string literal. -/
def jsonEscape (s : String) : String :=
  joinMap jsonEscapeChar s.data

mutual

/-- Modelled from Python `json.dumps(j)` with default separators `", "` and
`": "`, as called in `_synthesize_network_memo` (line 132). -/
def dumps : Json → String
  | .null => "null"
  | .bool true => "true"
  | .bool false => "false"
  | .num n => toString n
  | .str s => "\"" ++ jsonEscape s ++ "\""
  | .arr l => "[" ++ dumpsList l ++ "]"
  | .obj l => "\x7b" ++ dumpsFields l ++ "\x7d"

/-- Rendering of the elements of a JSON array, per `json.dumps`. -/
def dumpsList : List Json → String
  | [] => ""
  | [j] => dumps j
  | j :: js => dumps j ++ ", " ++ dumpsList js

/-- Rendering of the fields of a JSON object, per `json.dumps`. -/
def dumpsFields : List (String × Json) → String
  | [] => ""
  | [(k, v)] => "\"" ++ jsonEscape k ++ "\": " ++ dumps v
  | (k, v) :: fs => "\"" ++ jsonEscape k ++ "\": " ++ dumps v ++ ", " ++ dumpsFields fs

end

mutual

/-- Modelled from Python `repr(j)` (simplified: strings in single quotes with
no escaping). Only display code depends on it, no theorem below. -/
def pyRepr : Json → String
  | .null => "None"
  | .bool true => "True"
  | .bool false => "False"
  | .num n => toString n
  | .str s => "'" ++ s ++ "'"
  | .arr l => "[" ++ pyReprList l ++ "]"
  | .obj l => "\x7b" ++ pyReprFields l ++ "\x7d"

/-- Rendering of the elements of a Python list, per `repr`. -/
def pyReprList : List Json → String
  | [] => ""
  | [j] => pyRepr j
  | j :: js => pyRepr j ++ ", " ++ pyReprList js

/-- Rendering of the items of a Python dict, per `repr`. -/
def pyReprFields : List (String × Json) → String
  | [] => ""
  | [(k, v)] => "'" ++ k ++ "': " ++ pyRepr v
  | (k, v) :: fs => "'" ++ k ++ "': " ++ pyRepr v ++ ", " ++ pyReprFields fs

end

/-- Modelled from Python `str(j)` as used by f-string interpolation
(line 124): a string interpolates verbatim, other values via `repr`. -/
def pyStr (j : Json) : String :=
  match j with
  | .str s => s
  | _ => pyRepr j

/-- Python string slicing `s[:n]`: the first `n` characters (code points). -/
def pyTake (s : String) (n : Nat) : String :=
  String.mk (s.data.take n)

/-- Python `j.get(k, default)` applied to a JSON value that the code assumes
to be a dict (a non-dict would raise `AttributeError`; the memo code only
meets dict-shaped switch descriptors, modelled as the default otherwise). -/
def jGet (j : Json) (k : String) (d : Json) : Json :=
  match j with
  | .obj fields => (List.lookup k fields).getD d
  | _ => d

/-- Iteration `for x in j` over a JSON value the code assumes to be a list
(a non-list would raise `TypeError` in Python; modelled as no iterations). -/
def jsonItems : Json → List Json
  | .arr l => l
  | _ => []

/-- What the single `requests.post` call inside `_execute_of_command` did:
either a completed HTTP response (status code, body text, and the result of
`response.json()` — `Except.error` when the body is not valid JSON, in which
case `response.json()` raises), or an exception raised by the transport
itself (connection failure, timeout, ...). -/
inductive HttpBehavior where
  | response (status : Nat) (text : String) (parsed : Except String Outcome)
  | exn (message : String)

/-- The JSON-RPC request envelope built by `_execute_of_command`
(lines 62-66): `{"method": method, "params": params or {}, "id": 1}`. -/
def buildPayload (method : String) (params : Outcome) : Outcome :=
  [("method", Json.str method), ("params", Json.obj params), ("id", Json.num 1)]

/-- The client `POXOpenFlowManager._execute_of_command` (lines 58-76): POSTs the payload
to `<pox_server_url>/OF/` and normalizes the outcome. On status 200 returns
the decoded body verbatim; on any other status returns
`{"error": "HTTP Error: <status>", "details": <body text>}`; on any raised
exception (transport failure, or `response.json()` on a malformed body)
returns `{"error": "Connection Error", "details": <exception message>}`.
The `method`/`params` arguments only feed the wire payload, whose answer is
the `HttpBehavior` argument. -/
def execute_of_command (method : String) (params : Outcome) (b : HttpBehavior) : Outcome :=
  let _payload := buildPayload method params
  match b with
  | .exn m => [("error", Json.str ("Connection Error")), ("details", Json.str m)]
  | .response status text parsed =>
    if status = 200 then
      match parsed with
      | .ok j => j
      | .error m => [("error", Json.str ("Connection Error")), ("details", Json.str m)]
    else
      [("error", Json.str ("HTTP Error: " ++ toString status)), ("details", Json.str text)]

/-- One record of `self.configs` (appended at lines 108-112). -/
structure AppliedConfig where
  dpid : String
  flows : List Json
  timestamp : String

/-- The mutable fields of `POXOpenFlowManager` (lines 52-56). -/
structure POXState where
  pox_server_url : String
  network_memo : List String
  configs : List AppliedConfig
  insights : List String

/-- The constructor `POXOpenFlowManager.__init__` (lines 52-56). -/
def POXState.init (pox_server_url : String) : POXState :=
  { pox_server_url := pox_server_url, network_memo := [], configs := [], insights := [] }

/-- Facade operation `get_switches` (lines 78-81): `result.get("result", [])`. -/
def get_switches (b : HttpBehavior) : Json :=
  getD (execute_of_command ("get_switches") [] b) ("result") (Json.arr [])

/-- Facade operation `get_switch_desc` (lines 83-86): `result.get("result", \x7b\x7d)`. -/
def get_switch_desc (dpid : String) (b : HttpBehavior) : Json :=
  getD (execute_of_command ("get_switch_desc") [("dpid", Json.str dpid)] b) ("result") (Json.obj [])

/-- The params dict built by `get_flow_stats` (lines 90-96): `dpid` always;
`match` added when truthy (`if match:`); `table_id` and `out_port` added when
not `None` (`is not None`). Absent optional arguments are `None` (`Json.null`),
as defaulted at line 88 and by `arguments.get` at lines 405-407. -/
def get_flow_stats_params (dpid : String) (mtch table_id out_port : Json) : Outcome :=
  let params : Outcome := [("dpid", Json.str dpid)]
  let params : Outcome := if truthy mtch then params ++ [("match", mtch)] else params
  let params : Outcome :=
    if jsonIsNull table_id then params else params ++ [("table_id", table_id)]
  if jsonIsNull out_port then params else params ++ [("out_port", out_port)]

/-- Facade operation `get_flow_stats` (lines 88-99): builds the params and unwraps
`result.get("result", [])`. -/
def get_flow_stats (dpid : String) (mtch table_id out_port : Json) (b : HttpBehavior) : Json :=
  getD (execute_of_command ("get_flow_stats") (get_flow_stats_params dpid mtch table_id out_port) b)
    ("result") (Json.arr [])

/-- Facade operation `set_table` (lines 101-114): executes the RPC; when the raw outcome has no
`"error"` key, appends `{dpid, flows, "__current_time__"}` to `self.configs`;
returns `result.get("result", {})` together with the updated state. -/
def set_table (st : POXState) (dpid : String) (flows : List Json) (b : HttpBehavior) :
    Json × POXState :=
  let result := execute_of_command ("set_table")
    [("dpid", Json.str dpid), ("flows", Json.arr flows)] b
  let st :=
    if (List.lookup ("error") result).isNone then
      { st with configs :=
          st.configs ++ [{ dpid := dpid, flows := flows, timestamp := "__current_time__" }] }
    else st
  (getD result ("result") (Json.obj []), st)

/-- The handler for the `append_insight` tool (line 426):
`pox_manager.insights.append(arguments["insight"])`. -/
def append_insight (st : POXState) (insight : String) : POXState :=
  { st with insights := st.insights ++ [insight] }

/-- One topology line of the memo (line 124):
`f"- Switch DPID: {switch.get('dpid', 'unknown')}\n"`. -/
def switchLine (switch : Json) : String :=
  "- Switch DPID: " ++ pyStr (jGet switch ("dpid") (Json.str ("unknown"))) ++ "\n"

/-- One flow line of the memo (line 132):
`f"  Flow {i+1}: {json.dumps(flow)[:100]}...\n"`. -/
def flowLine (i : Nat) (flow : Json) : String :=
  ("  Flow " ++ toString (i + 1) ++ ": " ++ pyTake (dumps flow) 100) ++ "...\n"

/-- The header line of one configuration block (line 130):
`f"Configuration {idx+1} - Switch {config['dpid']}:\n"`. -/
def configHeader (p : Nat × AppliedConfig) : String :=
  "Configuration " ++ toString (p.1 + 1) ++ " - Switch " ++ p.2.dpid ++ ":\n"

/-- One insight line of the memo (line 138): `f"- {insight}\n"`. -/
def insightLine (insight : String) : String :=
  "- " ++ insight ++ "\n"

/-- The memo synthesizer `_synthesize_network_memo` (lines 116-140), state-passing: the method
only reads `self.configs` and `self.insights` (its one side effect besides
logging is the embedded `get_switches` RPC call, whose response is `b`), so
the returned state is the input state. `self.configs[-5:]` is
`drop (length - 5)`. -/
def synthesize_network_memo (st : POXState) (b : HttpBehavior) : String × POXState :=
  let memo := "📊 Network Configuration Memo 📊\n\n"
  let memo := memo ++ "Network Topology:\n"
  let switches := get_switches b
  let memo := (jsonItems switches).foldl (fun m sw => m ++ switchLine sw) memo
  let memo :=
    if st.configs.isEmpty then memo
    else
      ((st.configs.drop (st.configs.length - 5)).enum).foldl
        (fun m p => (p.2.flows.enum).foldl (fun m2 q => m2 ++ flowLine q.1 q.2)
          (m ++ configHeader p))
        (memo ++ "\nRecent Flow Configurations:\n")
  let memo :=
    if st.insights.isEmpty then memo
    else st.insights.foldl (fun m insight => m ++ insightLine insight)
      (memo ++ "\nNetwork Insights:\n")
  (memo, st)

/-- The body of one configuration block of the memo (lines 130-132): the
header line followed by one `flowLine` per flow, flows enumerated from 0. -/
def configEntry (p : Nat × AppliedConfig) : String :=
  configHeader p ++ joinMap (fun q => flowLine q.1 q.2) p.2.flows.enum

/-- The "Network Topology" section body of the memo (lines 122-124). -/
def topologySection (b : HttpBehavior) : String :=
  joinMap switchLine (jsonItems (get_switches b))

/-- The "Recent Flow Configurations" section of the memo (lines 127-132):
present only when the history is non-empty, and rendering only the last five
records (`self.configs[-5:]`). -/
def configsSection (configs : List AppliedConfig) : String :=
  if configs.isEmpty then ""
  else "\nRecent Flow Configurations:\n"
    ++ joinMap configEntry ((configs.drop (configs.length - 5)).enum)

/-- The "Network Insights" section of the memo (lines 135-138): present only
when the insight list is non-empty, one `insightLine` per insight in order. -/
def insightsSection (insights : List String) : String :=
  if insights.isEmpty then ""
  else "\nNetwork Insights:\n" ++ joinMap insightLine insights

theorem joinMap_append (f : α → String) (l₁ l₂ : List α) :
    joinMap f (l₁ ++ l₂) = joinMap f l₁ ++ joinMap f l₂ := by
  induction l₁ with
  | nil => rfl
  | cons x xs ih => simp only [List.append_eq, List.cons_append, joinMap, ih, String.append_assoc]

theorem foldl_append_of_body (F : String → α → String) (f : α → String)
    (hF : ∀ m x, F m x = m ++ f x) (l : List α) (init : String) :
    l.foldl F init = init ++ joinMap f l := by
  induction l generalizing init with
  | nil => simp [joinMap, String.append_empty]
  | cons x xs ih =>
    rw [List.foldl_cons, hF, ih, joinMap, String.append_assoc]

theorem configs_fold_body (m : String) (p : Nat × AppliedConfig) :
    (p.2.flows.enum).foldl (fun m2 q => m2 ++ flowLine q.1 q.2) (m ++ configHeader p)
      = m ++ configEntry p := by
  have h := foldl_append_of_body (fun m2 (q : Nat × Json) => m2 ++ flowLine q.1 q.2)
    (fun q => flowLine q.1 q.2) (fun _ _ => rfl) (p.2.flows.enum) (m ++ configHeader p)
  rw [h, configEntry, String.append_assoc]

/-- The memo text decomposes into header, topology section, configurations
section and insights section, in that order; the state is returned intact. -/
theorem synthesize_network_memo_eq (st : POXState) (b : HttpBehavior) :
    synthesize_network_memo st b =
      (("📊 Network Configuration Memo 📊\n\n" ++ "Network Topology:\n")
        ++ topologySection b ++ configsSection st.configs ++ insightsSection st.insights,
       st) := by
  have hsw : ∀ init : String,
      (jsonItems (get_switches b)).foldl (fun m sw => m ++ switchLine sw) init
        = init ++ joinMap switchLine (jsonItems (get_switches b)) :=
    fun init => foldl_append_of_body _ switchLine (fun _ _ => rfl) _ init
  have hconf : ∀ init : String,
      ((st.configs.drop (st.configs.length - 5)).enum).foldl
          (fun m p => (p.2.flows.enum).foldl (fun m2 q => m2 ++ flowLine q.1 q.2)
            (m ++ configHeader p)) init
        = init ++ joinMap configEntry ((st.configs.drop (st.configs.length - 5)).enum) :=
    fun init => foldl_append_of_body _ configEntry configs_fold_body _ init
  have hins : ∀ init : String,
      st.insights.foldl (fun m insight => m ++ insightLine insight) init
        = init ++ joinMap insightLine st.insights :=
    fun init => foldl_append_of_body _ insightLine (fun _ _ => rfl) _ init
  simp only [synthesize_network_memo, topologySection, configsSection, insightsSection,
    hsw, hconf, hins]
  cases hc : st.configs.isEmpty <;> cases hi : st.insights.isEmpty <;>
    simp [hc, hi, String.append_assoc, String.append_empty]

/-- The outcome of `_execute_of_command` does not depend on the method name or
the params: they only feed the request payload, whose answer is already fixed
by the `HttpBehavior` of the call. -/
theorem execute_of_command_congr (m m2 : String) (p p2 : Outcome) (b : HttpBehavior) :
    execute_of_command m p b = execute_of_command m2 p2 b := rfl

/-- C1: a `set_table` call appends the record `{dpid, flows, timestamp}` to
the configuration history if and only if the raw RPC outcome has no `"error"`
key; when it has one, the configuration sequence is unchanged (and the insight
sequence is never touched). -/
theorem set_table_appends_iff_no_error (st : POXState) (dpid : String) (flows : List Json)
    (b : HttpBehavior) :
    ((set_table st dpid flows b).2.configs
        = st.configs ++ [{ dpid := dpid, flows := flows, timestamp := "__current_time__" }]
      ↔ List.lookup ("error")
          (execute_of_command ("set_table")
            [("dpid", Json.str dpid), ("flows", Json.arr flows)] b) = none)
    ∧ (List.lookup ("error")
          (execute_of_command ("set_table")
            [("dpid", Json.str dpid), ("flows", Json.arr flows)] b) ≠ none →
        (set_table st dpid flows b).2.configs = st.configs)
    ∧ (set_table st dpid flows b).2.insights = st.insights := by
  cases hl : List.lookup ("error")
      (execute_of_command ("set_table")
        [("dpid", Json.str dpid), ("flows", Json.arr flows)] b) with
  | none =>
    refine ⟨⟨fun _ => rfl, fun _ => ?_⟩, fun hne => absurd rfl hne, ?_⟩ <;>
      simp [set_table, hl]
  | some e =>
    refine ⟨⟨fun hcfg => ?_, fun hnone => ?_⟩, fun _ => ?_, ?_⟩
    · exfalso
      have hlen := congrArg List.length hcfg
      simp [set_table, hl] at hlen
    · exact absurd hnone (by simp)
    · simp [set_table, hl]
    · simp [set_table, hl]

/-- C1 witness: with an HTTP 500 response the outcome has an `"error"` key and
the history stays empty. -/
theorem set_table_appends_iff_no_error_witness :
    (set_table (POXState.init ("u")) ("1") []
      (HttpBehavior.response 500 ("boom") (Except.ok []))).2.configs = [] := by
  have h := set_table_appends_iff_no_error (POXState.init ("u")) ("1") []
    (HttpBehavior.response 500 ("boom") (Except.ok []))
  refine h.2.1 ?_
  intro hn
  have hx : List.lookup ("error")
      (execute_of_command ("set_table") [("dpid", Json.str ("1")), ("flows", Json.arr [])]
        (HttpBehavior.response 500 ("boom") (Except.ok [])))
      = some (Json.str ("HTTP Error: 500")) := rfl
  rw [hx] at hn
  exact Option.noConfusion hn

/-- C2: the RPC client is a total function of the call behavior and always
returns the normalized error mapping on failures: `HTTP Error: <status>` with
the body text on any non-200 status, and `Connection Error` with the exception
message on a raised transport exception or a malformed (undecodable) 200
body. -/
theorem execute_of_command_error_shapes (method : String) (params : Outcome) (status : Nat)
    (text : String) (parsed : Except String Outcome) (m : String) (h : status ≠ 200) :
    execute_of_command method params (HttpBehavior.response status text parsed)
        = [("error", Json.str ("HTTP Error: " ++ toString status)),
           ("details", Json.str text)]
    ∧ execute_of_command method params (HttpBehavior.exn m)
        = [("error", Json.str ("Connection Error")), ("details", Json.str m)]
    ∧ execute_of_command method params (HttpBehavior.response 200 text (Except.error m))
        = [("error", Json.str ("Connection Error")), ("details", Json.str m)] := by
  refine ⟨?_, rfl, rfl⟩
  simp [execute_of_command, h]

/-- C2 witness at status 404 with concrete body and message. -/
theorem execute_of_command_error_shapes_witness :
    execute_of_command ("get_switches") [] (HttpBehavior.response 404 ("nf") (Except.ok []))
      = [("error", Json.str ("HTTP Error: 404")), ("details", Json.str ("nf"))] :=
  (execute_of_command_error_shapes ("get_switches") [] 404 ("nf") (Except.ok []) ("x")
    (by decide)).1

/-- C3: a successful `set_table` call (no `"error"` key in the raw outcome)
grows the history by exactly one record, whose `dpid` and `flows` are the
call's inputs. -/
theorem set_table_success_appends (st : POXState) (dpid : String) (flows : List Json)
    (b : HttpBehavior)
    (h : List.lookup ("error")
        (execute_of_command ("set_table")
          [("dpid", Json.str dpid), ("flows", Json.arr flows)] b) = none) :
    (set_table st dpid flows b).2.configs.length = st.configs.length + 1
    ∧ (set_table st dpid flows b).2.configs.getLast?
        = some { dpid := dpid, flows := flows, timestamp := "__current_time__" } := by
  constructor <;> simp [set_table, h, List.getLast?_concat]

/-- C3 witness: a 200 response whose body has only a `"result"` key appends
the one record. -/
theorem set_table_success_appends_witness :
    (set_table (POXState.init ("u")) ("7") [Json.obj []]
        (HttpBehavior.response 200 ("") (Except.ok [("result", Json.obj [])]))).2.configs.length
      = (POXState.init ("u")).configs.length + 1 :=
  (set_table_success_appends (POXState.init ("u")) ("7") [Json.obj []]
    (HttpBehavior.response 200 ("") (Except.ok [("result", Json.obj [])])) rfl).1

/-- C4: on an HTTP 500 response `get_switches` returns the empty list while
the raw outcome for the same call is
`{"error": "HTTP Error: 500", "details": <body>}`; and whenever the outcome
has no `"result"` key (in particular for every error outcome), each facade
operation returns its type-appropriate empty default. -/
theorem facade_unwrap_defaults (t : String) (parsed : Except String Outcome)
    (dpid : String) (mtch table_id out_port : Json) (st : POXState) (flows : List Json)
    (b : HttpBehavior)
    (h : List.lookup ("result") (execute_of_command ("get_switches") [] b) = none) :
    get_switches (HttpBehavior.response 500 t parsed) = Json.arr []
    ∧ execute_of_command ("get_switches") [] (HttpBehavior.response 500 t parsed)
        = [("error", Json.str ("HTTP Error: 500")), ("details", Json.str t)]
    ∧ get_switches b = Json.arr []
    ∧ get_switch_desc dpid b = Json.obj []
    ∧ get_flow_stats dpid mtch table_id out_port b = Json.arr []
    ∧ (set_table st dpid flows b).1 = Json.obj [] := by
  have h2 : ∀ (m : String) (p : Outcome),
      List.lookup ("result") (execute_of_command m p b) = none := fun _ _ => h
  refine ⟨rfl, rfl, ?_, ?_, ?_, ?_⟩ <;>
    simp [get_switches, get_switch_desc, get_flow_stats, set_table, getD, h2]

/-- C4 witness: a concrete 500 response with body `"oops"`. -/
theorem facade_unwrap_defaults_witness :
    get_switches (HttpBehavior.response 500 ("oops") (Except.ok [])) = Json.arr [] :=
  (facade_unwrap_defaults ("oops") (Except.ok []) ("1") Json.null Json.null Json.null
    (POXState.init ("u")) [] (HttpBehavior.response 500 ("oops") (Except.ok []))
    rfl).1

theorem jsonIsNull_eq_false_iff (j : Json) : jsonIsNull j = false ↔ j ≠ Json.null := by
  cases j <;> simp [jsonIsNull]

/-- Where each key of the params dict built by `get_flow_stats` ends up:
`dpid` always present; `match` present exactly when truthy; `table_id` and
`out_port` present exactly when not `None`. -/
theorem get_flow_stats_params_lookup (dpid : String) (mtch table_id out_port : Json) :
    List.lookup ("dpid") (get_flow_stats_params dpid mtch table_id out_port)
        = some (Json.str dpid)
    ∧ List.lookup ("match") (get_flow_stats_params dpid mtch table_id out_port)
        = (if truthy mtch then some mtch else none)
    ∧ List.lookup ("table_id") (get_flow_stats_params dpid mtch table_id out_port)
        = (if jsonIsNull table_id then none else some table_id)
    ∧ List.lookup ("out_port") (get_flow_stats_params dpid mtch table_id out_port)
        = (if jsonIsNull out_port then none else some out_port) := by
  cases h1 : truthy mtch <;> cases h2 : jsonIsNull table_id <;>
    cases h3 : jsonIsNull out_port <;>
    simp [get_flow_stats_params, h1, h2, h3, List.lookup]

/-- C6 counterexample: the empty mapping is a provided (non-`None`) `match`
argument, yet `get_flow_stats` omits the `match` key from the params it sends
(because `if match:` tests truthiness, and `{}` is falsy). -/
theorem get_flow_stats_params_match_omitted_counterexample :
    Json.obj [] ≠ Json.null
    ∧ List.lookup ("match")
        (get_flow_stats_params ("1") (Json.obj []) Json.null Json.null) = none :=
  ⟨fun h => Json.noConfusion h, rfl⟩

/-- C6 amended: with every optional argument absent the params are exactly
`{"dpid": "1"}`; `table_id` and `out_port` are included if and only if they
are provided (non-`None`); `match` is included if and only if it is truthy
(so a provided falsy `match`, such as the empty mapping, is omitted). -/
theorem get_flow_stats_params_spec (dpid : String) (mtch table_id out_port : Json) :
    get_flow_stats_params ("1") Json.null Json.null Json.null = [("dpid", Json.str ("1"))]
    ∧ (truthy mtch = true →
        List.lookup ("match") (get_flow_stats_params dpid mtch table_id out_port)
          = some mtch)
    ∧ (truthy mtch = false →
        List.lookup ("match") (get_flow_stats_params dpid mtch table_id out_port) = none)
    ∧ (table_id ≠ Json.null →
        List.lookup ("table_id") (get_flow_stats_params dpid mtch table_id out_port)
          = some table_id)
    ∧ (table_id = Json.null →
        List.lookup ("table_id") (get_flow_stats_params dpid mtch table_id out_port) = none)
    ∧ (out_port ≠ Json.null →
        List.lookup ("out_port") (get_flow_stats_params dpid mtch table_id out_port)
          = some out_port)
    ∧ (out_port = Json.null →
        List.lookup ("out_port") (get_flow_stats_params dpid mtch table_id out_port)
          = none) := by
  have h := get_flow_stats_params_lookup dpid mtch table_id out_port
  refine ⟨rfl, fun ht => ?_, fun ht => ?_, fun ht => ?_, fun ht => ?_, fun ht => ?_,
    fun ht => ?_⟩
  · simp [h.2.1, ht]
  · simp [h.2.1, ht]
  · simp [h.2.2.1, (jsonIsNull_eq_false_iff table_id).mpr ht]
  · subst ht
    have h4 := (get_flow_stats_params_lookup dpid mtch Json.null out_port).2.2.1
    simpa [jsonIsNull] using h4
  · simp [h.2.2.2, (jsonIsNull_eq_false_iff out_port).mpr ht]
  · subst ht
    have h4 := (get_flow_stats_params_lookup dpid mtch table_id Json.null).2.2.2
    simpa [jsonIsNull] using h4

/-- C6 amended witness: a provided empty-string `table_id` is sent. -/
theorem get_flow_stats_params_spec_witness :
    List.lookup ("table_id")
        (get_flow_stats_params ("1") Json.null (Json.str ("")) Json.null)
      = some (Json.str ("")) :=
  (get_flow_stats_params_spec ("1") Json.null (Json.str ("")) Json.null).2.2.2.1
    (fun h => Json.noConfusion h)

/-- C9: the inclusion tests differ between the optional params: any falsy
`match` (in particular a provided empty mapping) is omitted, while `table_id`
and `out_port` are included whenever non-`None`, including empty strings. -/
theorem get_flow_stats_optional_asymmetry (dpid : String) (mtch table_id out_port : Json)
    (hfalsy : truthy mtch = false) (ht : table_id ≠ Json.null) (ho : out_port ≠ Json.null) :
    List.lookup ("match") (get_flow_stats_params dpid mtch table_id out_port) = none
    ∧ List.lookup ("match") (get_flow_stats_params dpid (Json.obj []) table_id out_port)
        = none
    ∧ List.lookup ("table_id") (get_flow_stats_params dpid mtch table_id out_port)
        = some table_id
    ∧ List.lookup ("out_port") (get_flow_stats_params dpid mtch table_id out_port)
        = some out_port
    ∧ List.lookup ("table_id") (get_flow_stats_params dpid mtch (Json.str ("")) out_port)
        = some (Json.str (""))
    ∧ List.lookup ("out_port") (get_flow_stats_params dpid mtch table_id (Json.str ("")))
        = some (Json.str ("")) := by
  have hA := get_flow_stats_params_lookup dpid mtch table_id out_port
  have hB := get_flow_stats_params_lookup dpid (Json.obj []) table_id out_port
  have hC := get_flow_stats_params_lookup dpid mtch (Json.str ("")) out_port
  have hD := get_flow_stats_params_lookup dpid mtch table_id (Json.str (""))
  have h2 : jsonIsNull table_id = false := (jsonIsNull_eq_false_iff table_id).mpr ht
  have h3 : jsonIsNull out_port = false := (jsonIsNull_eq_false_iff out_port).mpr ho
  refine ⟨?_, ?_, ?_, ?_, ?_, ?_⟩
  · simp [hA.2.1, hfalsy]
  · simp [hB.2.1, truthy]
  · simp [hA.2.2.1, h2]
  · simp [hA.2.2.2, h3]
  · simp [hC.2.2.1, jsonIsNull, h3]
  · simp [hD.2.2.2, jsonIsNull, h2]

/-- C9 witness: falsy `match = {}` omitted while `table_id = "5"` and
`out_port = ""` are sent. -/
theorem get_flow_stats_optional_asymmetry_witness :
    List.lookup ("match")
        (get_flow_stats_params ("1") (Json.obj []) (Json.str ("5")) (Json.str (""))) = none :=
  (get_flow_stats_optional_asymmetry ("1") (Json.obj []) (Json.str ("5")) (Json.str (""))
    rfl (fun h => Json.noConfusion h) (fun h => Json.noConfusion h)).1

/-- C5: with more than five stored configurations, the memo's configurations
section renders exactly the five most recently appended records
(`configs[-5:]`, a suffix of the history, in chronological order), their
enumeration indices are 0..4 (so the rendered labels are `Configuration 1`
through `Configuration 5`), and synthesis leaves the stored history intact. -/
theorem memo_renders_last_five (st : POXState) (b : HttpBehavior)
    (h : 5 < st.configs.length) :
    (st.configs.drop (st.configs.length - 5)).length = 5
    ∧ configsSection st.configs
        = "\nRecent Flow Configurations:\n"
          ++ joinMap configEntry ((st.configs.drop (st.configs.length - 5)).enum)
    ∧ ((st.configs.drop (st.configs.length - 5)).enum).map Prod.fst = [0, 1, 2, 3, 4]
    ∧ st.configs.drop (st.configs.length - 5) <:+ st.configs
    ∧ (synthesize_network_memo st b).1
        = ("📊 Network Configuration Memo 📊\n\n" ++ "Network Topology:\n")
          ++ topologySection b
          ++ ("\nRecent Flow Configurations:\n"
              ++ joinMap configEntry ((st.configs.drop (st.configs.length - 5)).enum))
          ++ insightsSection st.insights
    ∧ (synthesize_network_memo st b).2.configs = st.configs := by
  have hlen : (st.configs.drop (st.configs.length - 5)).length = 5 := by
    rw [List.length_drop]
    omega
  have hne : st.configs.isEmpty = false := by
    cases he : st.configs.isEmpty
    · rfl
    · rw [List.isEmpty_iff] at he
      rw [he] at h
      simp at h
  have hsec : configsSection st.configs
      = "\nRecent Flow Configurations:\n"
        ++ joinMap configEntry ((st.configs.drop (st.configs.length - 5)).enum) := by
    simp [configsSection, hne]
  refine ⟨hlen, hsec, ?_, List.drop_suffix _ _, ?_, rfl⟩
  · rw [List.enum_map_fst, hlen]
    decide
  · rw [synthesize_network_memo_eq, hsec]

/-- A six-entry configuration history used to witness C5. -/
def sampleState : POXState :=
  { pox_server_url := "u", network_memo := [], insights := [],
    configs :=
      [{ dpid := "0", flows := [], timestamp := "t" },
       { dpid := "1", flows := [], timestamp := "t" },
       { dpid := "2", flows := [], timestamp := "t" },
       { dpid := "3", flows := [], timestamp := "t" },
       { dpid := "4", flows := [], timestamp := "t" },
       { dpid := "5", flows := [], timestamp := "t" }] }

/-- C5 witness: six stored configurations, five rendered. -/
theorem memo_renders_last_five_witness :
    (sampleState.configs.drop (sampleState.configs.length - 5)).length = 5 :=
  (memo_renders_last_five sampleState (HttpBehavior.exn ("e")) (by decide)).1

/-- Any string written between two others is an infix at the character level. -/
theorem data_infix_of_eq {a mid c big : String} (h : big = a ++ mid ++ c) :
    mid.data <:+: big.data := by
  refine ⟨a.data, c.data, ?_⟩
  rw [h]
  simp [String.data_append]

/-- C7: when `x` is among the stored insights (e.g. right after
`append_insight "x"`), the memo contains the literal line `- x`; the memo
ends with the insights section, which is present exactly when the insight
list is non-empty and renders one line per insight in append order. -/
theorem memo_contains_insight_line (st : POXState) (b : HttpBehavior) (x : String)
    (h : x ∈ st.insights) :
    (insightLine x).data <:+: ((synthesize_network_memo st b).1).data
    ∧ insightsSection st.insights
        = "\nNetwork Insights:\n" ++ joinMap insightLine st.insights
    ∧ (synthesize_network_memo st b).1
        = ("📊 Network Configuration Memo 📊\n\n" ++ "Network Topology:\n")
          ++ topologySection b ++ configsSection st.configs
          ++ insightsSection st.insights
    ∧ ∀ l : List String, l.isEmpty = true → insightsSection l = "" := by
  have hne : st.insights.isEmpty = false := by
    cases he : st.insights.isEmpty
    · rfl
    · rw [List.isEmpty_iff] at he
      rw [he] at h
      simp at h
  have hsec : insightsSection st.insights
      = "\nNetwork Insights:\n" ++ joinMap insightLine st.insights := by
    simp [insightsSection, hne]
  have hmemo : (synthesize_network_memo st b).1
      = ("📊 Network Configuration Memo 📊\n\n" ++ "Network Topology:\n")
        ++ topologySection b ++ configsSection st.configs
        ++ insightsSection st.insights := by
    rw [synthesize_network_memo_eq]
  obtain ⟨p, s, hps⟩ := List.append_of_mem h
  refine ⟨?_, hsec, hmemo, fun l hl => by simp [insightsSection, hl]⟩
  apply data_infix_of_eq
    (a := ("📊 Network Configuration Memo 📊\n\n" ++ "Network Topology:\n")
      ++ topologySection b ++ configsSection st.configs
      ++ "\nNetwork Insights:\n" ++ joinMap insightLine p)
    (c := joinMap insightLine s)
  rw [hmemo, hsec, hps, joinMap_append]
  simp [joinMap, String.append_assoc]

/-- C7 witness: after `append_insight "x"` on a fresh state, the memo contains
the line `- x`. -/
theorem memo_contains_insight_line_witness :
    (insightLine ("x")).data <:+:
      ((synthesize_network_memo (append_insight (POXState.init ("u")) ("x"))
        (HttpBehavior.exn ("e"))).1).data :=
  (memo_contains_insight_line (append_insight (POXState.init ("u")) ("x"))
    (HttpBehavior.exn ("e")) ("x") (by decide)).1

/-- C8: every flow is rendered as its JSON serialization cut to the first 100
characters and then the ellipsis marker, and the `...` is appended whether or
not anything was cut: when the serialization is at most 100 characters long,
the line holds it whole and still ends with `...`. -/
theorem flow_rendering_truncates_and_ellipsis (i : Nat) (flow : Json) :
    flowLine i flow
        = ("  Flow " ++ toString (i + 1) ++ ": " ++ pyTake (dumps flow) 100) ++ "...\n"
    ∧ ("...\n").data <:+ (flowLine i flow).data
    ∧ ((dumps flow).data.length ≤ 100 →
        flowLine i flow
          = ("  Flow " ++ toString (i + 1) ++ ": " ++ dumps flow) ++ "...\n") := by
  refine ⟨rfl, ?_, fun hle => ?_⟩
  · have h1 : (flowLine i flow).data
        = ("  Flow " ++ toString (i + 1) ++ ": " ++ pyTake (dumps flow) 100).data
          ++ ("...\n").data := by
      simp [flowLine, String.data_append]
    rw [h1]
    exact List.suffix_append _ _
  · have h2 : pyTake (dumps flow) 100 = dumps flow := by
      unfold pyTake
      rw [List.take_of_length_le hle]
    simp [flowLine, h2]

/-- C8 witness: `dumps Json.null = "null"` needs no truncation, yet the line
still carries the ellipsis. -/
theorem flow_rendering_truncates_and_ellipsis_witness :
    flowLine 0 Json.null = ("  Flow " ++ toString (0 + 1) ++ ": " ++ dumps Json.null) ++ "...\n" :=
  (flow_rendering_truncates_and_ellipsis 0 Json.null).2.2 (by
    have hd : dumps Json.null = "null" := by simp [dumps]
    rw [hd]
    decide)

/-- C10: memo synthesis returns the state unchanged (it only reads the
configuration and insight sequences), and the rendered text depends on the
state only through those two sequences. -/
theorem synthesize_memo_preserves_state (st st2 : POXState) (b : HttpBehavior)
    (hc : st.configs = st2.configs) (hi : st.insights = st2.insights) :
    (synthesize_network_memo st b).2 = st
    ∧ (synthesize_network_memo st b).2.configs = st.configs
    ∧ (synthesize_network_memo st b).2.insights = st.insights
    ∧ (synthesize_network_memo st b).1 = (synthesize_network_memo st2 b).1 := by
  refine ⟨rfl, rfl, rfl, ?_⟩
  have e1 : (synthesize_network_memo st b).1
      = ("📊 Network Configuration Memo 📊\n\n" ++ "Network Topology:\n")
        ++ topologySection b ++ configsSection st.configs ++ insightsSection st.insights := by
    rw [synthesize_network_memo_eq]
  have e2 : (synthesize_network_memo st2 b).1
      = ("📊 Network Configuration Memo 📊\n\n" ++ "Network Topology:\n")
        ++ topologySection b ++ configsSection st2.configs ++ insightsSection st2.insights := by
    rw [synthesize_network_memo_eq]
  rw [e1, e2, hc, hi]

/-- C10 witness on a fresh state. -/
theorem synthesize_memo_preserves_state_witness :
    (synthesize_network_memo (POXState.init ("u")) (HttpBehavior.exn ("e"))).2
      = POXState.init ("u") :=
  (synthesize_memo_preserves_state (POXState.init ("u")) (POXState.init ("u"))
    (HttpBehavior.exn ("e")) rfl rfl).1
